import Mathlib

/-!
Shallow embedding of the content-script extraction pipeline of the
promptlyagent chrome-extension repository (content script file:
metadata readers, selection reader, structured extraction via an
abstract Readability/Turndown pair, fallback extraction, the
`extractPageData` orchestrator, and the message-listener boundary).

JavaScript strings are modelled as Lean `String`; the JavaScript
truthiness test on a string is `s ≠ ""` (both `null` and `""` are
falsy, so absent string fields are modelled as `""` wherever the
source only ever tests truthiness). `a || b` on strings is `jsOr`,
`s.substring(0, n)` is `jsSubstr s n`, `s.trim()` is `jsTrim`.
-/

namespace ChromeExt

/-- JavaScript `a || b` on strings: `b` when `a` is falsy (empty). -/
def jsOr (a b : String) : String := if a = "" then b else a

/-- JavaScript `s.substring(0, n)`: the first `n` characters of `s`. -/
def jsSubstr (s : String) (n : Nat) : String := String.mk (s.data.take n)

/-- JavaScript `s.trim()`: strip leading and trailing whitespace. -/
def jsTrim (s : String) : String :=
  String.mk (((s.data.dropWhile Char.isWhitespace).reverse.dropWhile
    Char.isWhitespace).reverse)

/-- A DOM element, reduced to the two text projections the source reads. -/
structure Elem where
  innerText : String
  textContent : String
deriving DecidableEq, Repr

/-- The result of `reader.parse()` (Mozilla Readability) when non-null.
String fields that may be `null` in JavaScript are `""` here: the source
only ever tests their truthiness or defaults them with `||`. -/
structure RawArticle where
  title : String
  content : String
  textContent : String
  excerpt : String
  byline : String
  siteName : String
deriving DecidableEq, Repr

/-- The record returned by `extractMainContent` when Readability succeeds. -/
structure Article where
  title : String
  content : String
  excerpt : String
  byline : String
  length : Nat
  siteName : String
deriving DecidableEq, Repr

/-- The DOM snapshot plus current-selection state that one invocation of the
content script reads.  `metaContent p` is the `content` attribute of the first
`meta[property=p], meta[name=p]` element (`""` when absent); `querySelector`
returns the first element matching a selector; `readability` is the parse
result of Readability on the cloned, script/style-stripped document (`none`
for a null result or a thrown error); `turndown` is the deterministic
HTML-to-markdown conversion of the Turndown service. -/
structure PageState where
  selectionRaw : String
  metaContent : String → String
  documentTitle : String
  locationHref : String
  locationHostname : String
  locationOrigin : String
  iconLinkHref : Option String
  readability : Option RawArticle
  turndown : String → String
  querySelector : String → Option Elem
  body : Elem

/-- `getMetaContent(property)` of the source. -/
def getMetaContent (s : PageState) (property : String) : String :=
  s.metaContent property

/-- `getMetaDescription()` of the source. -/
def getMetaDescription (s : PageState) : String :=
  jsOr (getMetaContent s "og:description")
    (jsOr (getMetaContent s "description")
      (jsOr (getMetaContent s "twitter:description") ""))

/-- `getMetaAuthor()` of the source. -/
def getMetaAuthor (s : PageState) : String :=
  jsOr (getMetaContent s "author")
    (jsOr (getMetaContent s "article:author")
      (jsOr (getMetaContent s "og:article:author") ""))

/-- `getMetaDate()` of the source. -/
def getMetaDate (s : PageState) : String :=
  jsOr (getMetaContent s "article:published_time")
    (jsOr (getMetaContent s "date")
      (jsOr (getMetaContent s "pubdate") ""))

/-- `getMetaKeywords()` of the source: split the `keywords` meta tag on
commas and trim each token; empty list when the tag is absent or empty. -/
def getMetaKeywords (s : PageState) : List String :=
  let keywords := getMetaContent s "keywords"
  if keywords = "" then [] else (keywords.splitOn ",").map jsTrim

/-- `getMetaImage()` of the source. -/
def getMetaImage (s : PageState) : String :=
  jsOr (getMetaContent s "og:image")
    (jsOr (getMetaContent s "twitter:image") "")

/-- `getFaviconUrl()` of the source: the first icon link's `href` when that
is truthy, else the origin-relative default `/favicon.ico`. -/
def getFaviconUrl (s : PageState) : String :=
  match s.iconLinkHref with
  | some href => if href = "" then s.locationOrigin ++ "/favicon.ico" else href
  | none => s.locationOrigin ++ "/favicon.ico"

/-- `getPageTitle()` of the source. -/
def getPageTitle (s : PageState) : String :=
  jsOr (getMetaContent s "og:title")
    (jsOr (getMetaContent s "twitter:title")
      (jsOr s.documentTitle ""))

/-- `getSelectedText()` of the source: the current selection, trimmed. -/
def getSelectedText (s : PageState) : String :=
  jsTrim s.selectionRaw

/-- `extractMainContent()` of the source: when Readability parses an article,
convert its HTML `content` to markdown with Turndown (falling back to the
article's `textContent || ""` when `content` is falsy) and package the
result; `none` when `reader.parse()` returned null or threw. -/
def extractMainContent (s : PageState) : Option Article :=
  match s.readability with
  | none => none
  | some article =>
    let markdownContent :=
      if article.content = "" then jsOr article.textContent ""
      else s.turndown article.content
    some { title := article.title
           content := markdownContent
           excerpt := jsOr article.excerpt ""
           byline := jsOr article.byline ""
           length := markdownContent.length
           siteName := jsOr article.siteName "" }

/-- The fixed selector priority list of `extractFallbackContent()`. -/
def fallbackSelectors : List String :=
  ["article", "main", "[role=\"main\"]",
   ".article-content", ".post-content", ".entry-content", ".content"]

/-- The first selector in `sels` that matches an element, as the loop in
`extractFallbackContent()` walks it. -/
def firstMatch (s : PageState) : List String → Option Elem
  | [] => none
  | sel :: rest =>
    match s.querySelector sel with
    | some e => some e
    | none => firstMatch s rest

/-- `element.innerText || element.textContent || ""`. -/
def elemText (e : Elem) : String :=
  jsOr e.innerText (jsOr e.textContent "")

/-- `extractFallbackContent()` of the source: the first matching semantic
container's text, else the body's text. -/
def extractFallbackContent (s : PageState) : String :=
  match firstMatch s fallbackSelectors with
  | some element => elemText element
  | none => jsOr s.body.innerText (jsOr s.body.textContent "")

/-- The final `result` object of `extractPageData()` (§3 ContentRecord). -/
structure ContentRecord where
  url : String
  domain : String
  title : String
  content : String
  excerpt : String
  selectedText : String
  hasSelection : Bool
  description : String
  author : String
  publishedDate : String
  keywords : List String
  ogImage : String
  favicon : String
  contentLength : Nat
  siteName : String
deriving DecidableEq, Repr

/-- A `chrome.runtime.sendMessage` payload. -/
structure Notification where
  action : String
  title : String
  message : String
  severity : String
deriving DecidableEq, Repr

/-- The one advisory message `extractPageData()` sends on its fallback
branch (`type: "info"` in the source payload). -/
def degradedNotice : Notification :=
  { action := "showNotification"
    title := "Content Extraction Notice"
    message := "Using basic extraction. Page structure may not be optimized for reading."
    severity := "info" }

/-- The `result` literal of `extractPageData()` before the content branch
mutates it: content, excerpt and contentLength still hold their
placeholders. -/
def baseRecord (s : PageState) (selectedText : String) (article : Option Article) :
    ContentRecord :=
  { url := s.locationHref
    domain := s.locationHostname
    title := getPageTitle s
    content := ""
    excerpt := ""
    selectedText := selectedText
    hasSelection := decide (0 < selectedText.length)
    description := getMetaDescription s
    author := jsOr (getMetaAuthor s) (match article with | some a => a.byline | none => "")
    publishedDate := getMetaDate s
    keywords := getMetaKeywords s
    ogImage := getMetaImage s
    favicon := getFaviconUrl s
    contentLength := 0
    siteName := match article with | some a => a.siteName | none => s.locationHostname }

/-- The mutation of `result` on the selection branch of `extractPageData()`. -/
def applySelection (r : ContentRecord) (selectedText : String) : ContentRecord :=
  { r with content := selectedText
           excerpt := jsSubstr selectedText 300
           contentLength := selectedText.length }

/-- The mutation of `result` on the Readability branch of `extractPageData()`,
including the conditional title override. -/
def applyStructured (r : ContentRecord) (a : Article) : ContentRecord :=
  let r1 : ContentRecord :=
    { r with content := a.content
             excerpt := jsOr a.excerpt (jsSubstr a.content 300)
             contentLength := if a.length ≠ 0 then a.length else a.content.length }
  if a.title ≠ "" ∧ 0 < a.title.length then { r1 with title := a.title } else r1

/-- The mutation of `result` on the fallback branch of `extractPageData()`. -/
def applyFallback (r : ContentRecord) (content : String) : ContentRecord :=
  { r with content := content
           excerpt := jsSubstr content 300
           contentLength := content.length }

/-- The final `if (!result.excerpt && result.description)` step of
`extractPageData()`. -/
def applyDescriptionExcerpt (r : ContentRecord) : ContentRecord :=
  if r.excerpt = "" ∧ r.description ≠ "" then { r with excerpt := r.description } else r

/-- `extractPageData()` of the source.  Returns the ContentRecord together
with the list of `chrome.runtime.sendMessage` notifications emitted during
the call (the source fires them without awaiting; the record never depends
on their delivery). -/
def extractPageData (s : PageState) : ContentRecord × List Notification :=
  let selectedText := getSelectedText s
  let article := extractMainContent s
  let result := baseRecord s selectedText article
  let step :=
    if 0 < selectedText.length then
      (applySelection result selectedText, ([] : List Notification))
    else
      match article with
      | some a =>
        if a.content ≠ "" then (applyStructured result a, [])
        else (applyFallback result (extractFallbackContent s), [degradedNotice])
      | none => (applyFallback result (extractFallbackContent s), [degradedNotice])
  (applyDescriptionExcerpt step.1, step.2)

/-- The three mutually exclusive content sources of the orchestrator's
decision tree (§4.6 of the spec). -/
inductive Source where
  | SELECTION
  | STRUCTURED
  | FALLBACK
deriving DecidableEq, Repr

/-- Which branch of `extractPageData()` a given page state takes, read off
from the branch conditions of the source. -/
def contentSource (s : PageState) : Source :=
  if 0 < (getSelectedText s).length then Source.SELECTION
  else
    match extractMainContent s with
    | some a => if a.content ≠ "" then Source.STRUCTURED else Source.FALLBACK
    | none => Source.FALLBACK

/-- A `sendResponse` payload of the message listener. -/
structure Response where
  success : Bool
  data : Option ContentRecord
  error : Option String
deriving DecidableEq, Repr

/-- The `chrome.runtime.onMessage` listener of the source, as a function of
the request action and of the outcome of running `extractPageData()` —
`Except.error msg` abstracts a JavaScript exception with message `msg`
thrown anywhere inside `extractPageData()`, which the listener's
`try`/`catch` converts to a failure response.  `none` means no response was
sent (action not recognised). -/
def onMessageListener (action : String)
    (outcome : Except String (ContentRecord × List Notification)) :
    Option Response :=
  if action = "extractPageData" then
    match outcome with
    | Except.ok pageData => some { success := true, data := some pageData.1, error := none }
    | Except.error msg => some { success := false, data := none, error := some msg }
  else none

/-! ### Basic lemmas about the string helpers -/

theorem jsOr_of_ne (a b : String) (h : a ≠ "") : jsOr a b = a := by
  simp [jsOr, h]

theorem jsOr_of_eq (a b : String) (h : a = "") : jsOr a b = b := by
  simp [jsOr, h]

theorem jsOr_eq_empty_iff (a b : String) : jsOr a b = "" ↔ a = "" ∧ b = "" := by
  unfold jsOr
  split <;> simp_all

theorem length_jsSubstr (s : String) (n : Nat) :
    (jsSubstr s n).length = min n s.length := by
  show (s.data.take n).length = min n s.data.length
  exact List.length_take n s.data

theorem length_jsSubstr_le (s : String) (n : Nat) : (jsSubstr s n).length ≤ n := by
  simp [length_jsSubstr]

theorem string_eq_empty_iff_data (s : String) : s = "" ↔ s.data = [] :=
  ⟨fun h => by rw [h], fun h => String.ext (h.trans rfl)⟩

theorem jsSubstr_eq_empty_iff (s : String) (n : Nat) :
    jsSubstr s n = "" ↔ n = 0 ∨ s = "" := by
  rw [jsSubstr, string_eq_empty_iff_data, string_eq_empty_iff_data]
  show s.data.take n = [] ↔ _
  exact List.take_eq_nil_iff

theorem string_length_pos_iff (s : String) : 0 < s.length ↔ s ≠ "" := by
  rw [Ne, string_eq_empty_iff_data]
  show 0 < s.data.length ↔ _
  exact List.length_pos

/-! ### Projection lemmas for the orchestrator's update steps -/

theorem adx_content (r : ContentRecord) :
    (applyDescriptionExcerpt r).content = r.content := by
  unfold applyDescriptionExcerpt; split <;> rfl

theorem adx_contentLength (r : ContentRecord) :
    (applyDescriptionExcerpt r).contentLength = r.contentLength := by
  unfold applyDescriptionExcerpt; split <;> rfl

theorem adx_title (r : ContentRecord) :
    (applyDescriptionExcerpt r).title = r.title := by
  unfold applyDescriptionExcerpt; split <;> rfl

theorem adx_author (r : ContentRecord) :
    (applyDescriptionExcerpt r).author = r.author := by
  unfold applyDescriptionExcerpt; split <;> rfl

theorem adx_siteName (r : ContentRecord) :
    (applyDescriptionExcerpt r).siteName = r.siteName := by
  unfold applyDescriptionExcerpt; split <;> rfl

theorem adx_selectedText (r : ContentRecord) :
    (applyDescriptionExcerpt r).selectedText = r.selectedText := by
  unfold applyDescriptionExcerpt; split <;> rfl

theorem adx_hasSelection (r : ContentRecord) :
    (applyDescriptionExcerpt r).hasSelection = r.hasSelection := by
  unfold applyDescriptionExcerpt; split <;> rfl

theorem adx_description (r : ContentRecord) :
    (applyDescriptionExcerpt r).description = r.description := by
  unfold applyDescriptionExcerpt; split <;> rfl

theorem adx_excerpt (r : ContentRecord) :
    (applyDescriptionExcerpt r).excerpt =
      if r.excerpt = "" ∧ r.description ≠ "" then r.description else r.excerpt := by
  unfold applyDescriptionExcerpt; split <;> rfl

theorem adx_excerpt_of_ne (r : ContentRecord) (h : r.excerpt ≠ "") :
    (applyDescriptionExcerpt r).excerpt = r.excerpt := by
  rw [adx_excerpt]; simp [h]

theorem applyStructured_content (r : ContentRecord) (a : Article) :
    (applyStructured r a).content = a.content := by
  unfold applyStructured; split <;> split <;> rfl

theorem applyStructured_excerpt (r : ContentRecord) (a : Article) :
    (applyStructured r a).excerpt = jsOr a.excerpt (jsSubstr a.content 300) := by
  unfold applyStructured; split <;> split <;> rfl

theorem applyStructured_contentLength (r : ContentRecord) (a : Article) :
    (applyStructured r a).contentLength =
      if a.length ≠ 0 then a.length else a.content.length := by
  unfold applyStructured; split <;> split <;> simp_all

theorem applyStructured_title (r : ContentRecord) (a : Article) :
    (applyStructured r a).title = if a.title ≠ "" ∧ 0 < a.title.length then a.title else r.title := by
  unfold applyStructured; split <;> split <;> simp_all

theorem applyStructured_author (r : ContentRecord) (a : Article) :
    (applyStructured r a).author = r.author := by
  unfold applyStructured; split <;> split <;> rfl

theorem applyStructured_siteName (r : ContentRecord) (a : Article) :
    (applyStructured r a).siteName = r.siteName := by
  unfold applyStructured; split <;> split <;> rfl

theorem applyStructured_description (r : ContentRecord) (a : Article) :
    (applyStructured r a).description = r.description := by
  unfold applyStructured; split <;> split <;> rfl

theorem extractMainContent_length (s : PageState) (a : Article)
    (h : extractMainContent s = some a) : a.length = a.content.length := by
  unfold extractMainContent at h
  cases hr : s.readability with
  | none => rw [hr] at h; exact absurd h (by simp)
  | some raw =>
    rw [hr] at h
    simp only [Option.some.injEq] at h
    subst h
    rfl

/-! ### Path characterizations of `extractPageData` -/

theorem extractPageData_selection (s : PageState)
    (h : 0 < (getSelectedText s).length) :
    extractPageData s =
      (applyDescriptionExcerpt
        (applySelection (baseRecord s (getSelectedText s) (extractMainContent s))
          (getSelectedText s)), []) := by
  simp [extractPageData, h]

theorem extractPageData_structured (s : PageState) (a : Article)
    (hsel : ¬ 0 < (getSelectedText s).length)
    (ha : extractMainContent s = some a) (hc : a.content ≠ "") :
    extractPageData s =
      (applyDescriptionExcerpt
        (applyStructured (baseRecord s (getSelectedText s) (extractMainContent s)) a), []) := by
  simp [extractPageData, hsel, ha, hc]

theorem extractPageData_fallback_none (s : PageState)
    (hsel : ¬ 0 < (getSelectedText s).length)
    (ha : extractMainContent s = none) :
    extractPageData s =
      (applyDescriptionExcerpt
        (applyFallback (baseRecord s (getSelectedText s) (extractMainContent s))
          (extractFallbackContent s)), [degradedNotice]) := by
  simp [extractPageData, hsel, ha]

theorem extractPageData_fallback_emptyContent (s : PageState) (a : Article)
    (hsel : ¬ 0 < (getSelectedText s).length)
    (ha : extractMainContent s = some a) (hc : a.content = "") :
    extractPageData s =
      (applyDescriptionExcerpt
        (applyFallback (baseRecord s (getSelectedText s) (extractMainContent s))
          (extractFallbackContent s)), [degradedNotice]) := by
  simp [extractPageData, hsel, ha, hc]

theorem contentSource_selection_iff (s : PageState) :
    contentSource s = Source.SELECTION ↔ 0 < (getSelectedText s).length := by
  unfold contentSource
  by_cases h : 0 < (getSelectedText s).length
  · simp [h]
  · rw [if_neg h]
    cases hm : extractMainContent s with
    | none => simp [h]
    | some a => by_cases hc : a.content = "" <;> simp [hc, h]

theorem contentSource_structured_iff (s : PageState) :
    contentSource s = Source.STRUCTURED ↔
      ¬ 0 < (getSelectedText s).length ∧
        ∃ a, extractMainContent s = some a ∧ a.content ≠ "" := by
  unfold contentSource
  by_cases h : 0 < (getSelectedText s).length
  · simp [h]
  · rw [if_neg h]
    cases hm : extractMainContent s with
    | none => simp [h]
    | some a => by_cases hc : a.content = "" <;> simp [hc, h]

theorem contentSource_fallback_iff (s : PageState) :
    contentSource s = Source.FALLBACK ↔
      ¬ 0 < (getSelectedText s).length ∧
        (extractMainContent s = none ∨
          ∃ a, extractMainContent s = some a ∧ a.content = "") := by
  unfold contentSource
  by_cases h : 0 < (getSelectedText s).length
  · simp [h]
  · rw [if_neg h]
    cases hm : extractMainContent s with
    | none => simp [h]
    | some a => by_cases hc : a.content = "" <;> simp [hc, h]

theorem applyStructured_hasSelection (r : ContentRecord) (a : Article) :
    (applyStructured r a).hasSelection = r.hasSelection := by
  unfold applyStructured; split <;> split <;> rfl

theorem applyStructured_selectedText (r : ContentRecord) (a : Article) :
    (applyStructured r a).selectedText = r.selectedText := by
  unfold applyStructured; split <;> split <;> rfl

/-! ### Field lemmas: parts of the record no branch of the orchestrator touches -/

theorem extractPageData_hasSelection (s : PageState) :
    (extractPageData s).1.hasSelection = decide (0 < (getSelectedText s).length) := by
  by_cases h : 0 < (getSelectedText s).length
  · rw [extractPageData_selection s h]
    simp [adx_hasSelection, applySelection, baseRecord]
  · cases hm : extractMainContent s with
    | none =>
      rw [extractPageData_fallback_none s h hm]
      simp [adx_hasSelection, applyFallback, baseRecord]
    | some a =>
      by_cases hc : a.content = ""
      · rw [extractPageData_fallback_emptyContent s a h hm hc]
        simp [adx_hasSelection, applyFallback, baseRecord]
      · rw [extractPageData_structured s a h hm hc]
        simp [adx_hasSelection, applyStructured_hasSelection, baseRecord]

theorem extractPageData_selectedText (s : PageState) :
    (extractPageData s).1.selectedText = getSelectedText s := by
  by_cases h : 0 < (getSelectedText s).length
  · rw [extractPageData_selection s h]
    simp [adx_selectedText, applySelection, baseRecord]
  · cases hm : extractMainContent s with
    | none =>
      rw [extractPageData_fallback_none s h hm]
      simp [adx_selectedText, applyFallback, baseRecord]
    | some a =>
      by_cases hc : a.content = ""
      · rw [extractPageData_fallback_emptyContent s a h hm hc]
        simp [adx_selectedText, applyFallback, baseRecord]
      · rw [extractPageData_structured s a h hm hc]
        simp [adx_selectedText, applyStructured_selectedText, baseRecord]

theorem extractPageData_author (s : PageState) :
    (extractPageData s).1.author =
      jsOr (getMetaAuthor s)
        (match extractMainContent s with | some a => a.byline | none => "") := by
  by_cases h : 0 < (getSelectedText s).length
  · rw [extractPageData_selection s h]
    simp [adx_author, applySelection, baseRecord]
  · cases hm : extractMainContent s with
    | none =>
      rw [extractPageData_fallback_none s h hm]
      simp [adx_author, applyFallback, baseRecord, hm]
    | some a =>
      by_cases hc : a.content = ""
      · rw [extractPageData_fallback_emptyContent s a h hm hc]
        simp [adx_author, applyFallback, baseRecord, hm]
      · rw [extractPageData_structured s a h hm hc]
        simp [adx_author, applyStructured_author, baseRecord, hm]

theorem extractPageData_siteName (s : PageState) :
    (extractPageData s).1.siteName =
      (match extractMainContent s with | some a => a.siteName | none => s.locationHostname) := by
  by_cases h : 0 < (getSelectedText s).length
  · rw [extractPageData_selection s h]
    simp [adx_siteName, applySelection, baseRecord]
  · cases hm : extractMainContent s with
    | none =>
      rw [extractPageData_fallback_none s h hm]
      simp [adx_siteName, applyFallback, baseRecord, hm]
    | some a =>
      by_cases hc : a.content = ""
      · rw [extractPageData_fallback_emptyContent s a h hm hc]
        simp [adx_siteName, applyFallback, baseRecord, hm]
      · rw [extractPageData_structured s a h hm hc]
        simp [adx_siteName, applyStructured_siteName, baseRecord, hm]

/-! ### Concrete page states used to instantiate the theorems -/

/-- A page with a non-empty (untrimmed) selection and no Readability result. -/
def sampleSelState : PageState :=
  { selectionRaw := "  Hello world  "
    metaContent := fun _ => ""
    documentTitle := "Example Domain"
    locationHref := "https://example.com/a"
    locationHostname := "example.com"
    locationOrigin := "https://example.com"
    iconLinkHref := none
    readability := none
    turndown := fun h => h
    querySelector := fun _ => none
    body := { innerText := "Body text", textContent := "Body text" } }

/-- A Readability parse result with an empty `siteName` and empty excerpt. -/
def sampleStructRaw : RawArticle :=
  { title := "Readability Title"
    content := "<p>Long article</p>"
    textContent := "Long article"
    excerpt := ""
    byline := "Jane Doe"
    siteName := "" }

/-- A page with no selection whose Readability pass succeeds. -/
def sampleStructState : PageState :=
  { selectionRaw := "   "
    metaContent := fun _ => ""
    documentTitle := "Doc Title"
    locationHref := "https://example.com/b"
    locationHostname := "example.com"
    locationOrigin := "https://example.com"
    iconLinkHref := none
    readability := some sampleStructRaw
    turndown := fun _ => "Long article md"
    querySelector := fun _ => none
    body := { innerText := "Body", textContent := "Body" } }

/-- The `extractMainContent` output on `sampleStructState`. -/
def sampleStructArticle : Article :=
  { title := "Readability Title"
    content := "Long article md"
    excerpt := ""
    byline := "Jane Doe"
    length := ("Long article md" : String).length
    siteName := "" }

/-- A page with no selection, no Readability result and no matching
fallback selector, but a body with visible text. -/
def sampleFallState : PageState :=
  { selectionRaw := ""
    metaContent := fun _ => ""
    documentTitle := "Fall Title"
    locationHref := "https://example.com/c"
    locationHostname := "example.com"
    locationOrigin := "https://example.com"
    iconLinkHref := none
    readability := none
    turndown := fun h => h
    querySelector := fun _ => none
    body := { innerText := "Hello body", textContent := "Hello body" } }

/-- A page with no selection and no Readability result where the first
fallback selector (`article`) matches an element with no text at all,
while the body does have visible text. -/
def emptyContainerState : PageState :=
  { selectionRaw := ""
    metaContent := fun _ => ""
    documentTitle := "Empty Container"
    locationHref := "https://example.com/d"
    locationHostname := "example.com"
    locationOrigin := "https://example.com"
    iconLinkHref := none
    readability := none
    turndown := fun h => h
    querySelector := fun sel =>
      if sel = "article" then some { innerText := "", textContent := "" } else none
    body := { innerText := "Hello body", textContent := "Hello body" } }

/-! ### Claim theorems -/

/-- C1: for every page, `hasSelection` is true iff the current selection is
non-empty after trimming, and whenever the trimmed selection is non-empty the
record's `content` and `selectedText` both equal the trimmed selection
verbatim (no other source is used). -/
theorem c1_selection_wins (s : PageState) :
    ((extractPageData s).1.hasSelection = true ↔ jsTrim s.selectionRaw ≠ "") ∧
    (jsTrim s.selectionRaw ≠ "" →
      (extractPageData s).1.content = jsTrim s.selectionRaw ∧
      (extractPageData s).1.selectedText = jsTrim s.selectionRaw ∧
      (extractPageData s).1.hasSelection = true) := by
  constructor
  · rw [extractPageData_hasSelection]
    simp only [decide_eq_true_eq, string_length_pos_iff]
    exact Iff.rfl
  · intro h
    have hpos : 0 < (getSelectedText s).length := (string_length_pos_iff _).2 h
    refine ⟨?_, ?_, ?_⟩
    · rw [extractPageData_selection s hpos]
      simp [adx_content, applySelection]
      rfl
    · rw [extractPageData_selectedText]
      rfl
    · rw [extractPageData_hasSelection]
      simp [hpos]

/-- C1 witness: on the concrete page `sampleSelState` whose raw selection is
`"  Hello world  "`, the record reports the trimmed selection verbatim. -/
theorem c1_selection_wins_witness :
    (extractPageData sampleSelState).1.content = jsTrim "  Hello world  " ∧
    (extractPageData sampleSelState).1.selectedText = jsTrim "  Hello world  " ∧
    (extractPageData sampleSelState).1.hasSelection = true :=
  (c1_selection_wins sampleSelState).2 (by decide)

/-- C2: on every path of `extractPageData`, the `contentLength` field equals
the character length of the `content` field. -/
theorem c2_contentLength_eq_length (s : PageState) :
    (extractPageData s).1.contentLength = (extractPageData s).1.content.length := by
  by_cases h : 0 < (getSelectedText s).length
  · rw [extractPageData_selection s h]
    simp [adx_contentLength, adx_content, applySelection]
  · cases hm : extractMainContent s with
    | none =>
      rw [extractPageData_fallback_none s h hm]
      simp [adx_contentLength, adx_content, applyFallback]
    | some a =>
      by_cases hc : a.content = ""
      · rw [extractPageData_fallback_emptyContent s a h hm hc]
        simp [adx_contentLength, adx_content, applyFallback]
      · rw [extractPageData_structured s a h hm hc]
        rw [adx_contentLength, adx_content, applyStructured_contentLength,
          applyStructured_content, extractMainContent_length s a hm]
        split <;> rfl

/-- C7: the advisory degraded-extraction notification is emitted exactly on
the FALLBACK path — one notification there, none on the SELECTION or
STRUCTURED paths. -/
theorem c7_notification_policy (s : PageState) :
    (extractPageData s).2 =
      (if contentSource s = Source.FALLBACK then [degradedNotice] else []) := by
  by_cases h : 0 < (getSelectedText s).length
  · rw [extractPageData_selection s h]
    have hs : contentSource s = Source.SELECTION := (contentSource_selection_iff s).2 h
    simp [hs]
  · cases hm : extractMainContent s with
    | none =>
      rw [extractPageData_fallback_none s h hm]
      have hs : contentSource s = Source.FALLBACK :=
        (contentSource_fallback_iff s).2 ⟨h, Or.inl hm⟩
      simp [hs]
    | some a =>
      by_cases hc : a.content = ""
      · rw [extractPageData_fallback_emptyContent s a h hm hc]
        have hs : contentSource s = Source.FALLBACK :=
          (contentSource_fallback_iff s).2 ⟨h, Or.inr ⟨a, hm, hc⟩⟩
        simp [hs]
      · rw [extractPageData_structured s a h hm hc]
        have hs : contentSource s = Source.STRUCTURED :=
          (contentSource_structured_iff s).2 ⟨h, a, hm, hc⟩
        simp [hs]

/-- C9: extraction is a deterministic function of the DOM snapshot and the
current selection — two invocations on equal states return records equal in
every field (and the same notifications). -/
theorem c9_deterministic (s t : PageState) (h : s = t) :
    extractPageData s = extractPageData t := by rw [h]

/-- C9 witness: two invocations on the unchanged concrete state
`sampleSelState` agree. -/
theorem c9_deterministic_witness :
    extractPageData sampleSelState = extractPageData sampleSelState :=
  c9_deterministic sampleSelState sampleSelState rfl

/-- C4: the extractor title overrides the metadata-derived title only on the
STRUCTURED path and only when the extractor title is non-empty; on the
SELECTION and FALLBACK paths, and on the STRUCTURED path with an empty
extractor title, the record's title is the metadata title chain
(`og:title` → `twitter:title` → document title → `""`). -/
theorem c4_title_override (s : PageState) :
    ((contentSource s = Source.SELECTION ∨ contentSource s = Source.FALLBACK) →
      (extractPageData s).1.title = getPageTitle s) ∧
    (∀ a, extractMainContent s = some a → contentSource s = Source.STRUCTURED →
      (a.title ≠ "" → (extractPageData s).1.title = a.title) ∧
      (a.title = "" → (extractPageData s).1.title = getPageTitle s)) := by
  constructor
  · rintro (hsrc | hsrc)
    · have h := (contentSource_selection_iff s).1 hsrc
      rw [extractPageData_selection s h]
      simp [adx_title, applySelection, baseRecord]
    · obtain ⟨h, hcase⟩ := (contentSource_fallback_iff s).1 hsrc
      rcases hcase with hm | ⟨a, hm, hc⟩
      · rw [extractPageData_fallback_none s h hm]
        simp [adx_title, applyFallback, baseRecord]
      · rw [extractPageData_fallback_emptyContent s a h hm hc]
        simp [adx_title, applyFallback, baseRecord]
  · intro a hm hsrc
    obtain ⟨h, a2, hm2, hc2⟩ := (contentSource_structured_iff s).1 hsrc
    rw [hm] at hm2
    obtain rfl : a = a2 := by injection hm2
    constructor
    · intro ht
      rw [extractPageData_structured s a h hm hc2, adx_title, applyStructured_title]
      have hl : 0 < a.title.length := (string_length_pos_iff _).2 ht
      simp [ht, hl]
    · intro ht
      rw [extractPageData_structured s a h hm hc2, adx_title, applyStructured_title]
      simp [ht, baseRecord]

/-- C4 witness: on `sampleStructState` the STRUCTURED path is taken with a
non-empty extractor title, and the record's title is the extractor title. -/
theorem c4_title_override_witness :
    (extractPageData sampleStructState).1.title = "Readability Title" := by
  have h := (c4_title_override sampleStructState).2 sampleStructArticle rfl (by decide)
  exact h.1 (by decide)

/-- C5: whenever the record's excerpt is derived by truncating the content or
the selection (the SELECTION path, the STRUCTURED path with an empty
extractor excerpt, and the FALLBACK path with non-empty fallback content),
its length is at most 300 characters. -/
theorem c5_excerpt_cap (s : PageState) :
    (contentSource s = Source.SELECTION → (extractPageData s).1.excerpt.length ≤ 300) ∧
    (∀ a, extractMainContent s = some a → contentSource s = Source.STRUCTURED →
      a.excerpt = "" → (extractPageData s).1.excerpt.length ≤ 300) ∧
    (contentSource s = Source.FALLBACK → extractFallbackContent s ≠ "" →
      (extractPageData s).1.excerpt.length ≤ 300) := by
  refine ⟨?_, ?_, ?_⟩
  · intro hsrc
    have h := (contentSource_selection_iff s).1 hsrc
    have hsel : getSelectedText s ≠ "" := (string_length_pos_iff _).1 h
    have hne : jsSubstr (getSelectedText s) 300 ≠ "" := by
      rw [Ne, jsSubstr_eq_empty_iff]
      simp [hsel]
    have hfe : (extractPageData s).1.excerpt = jsSubstr (getSelectedText s) 300 := by
      rw [extractPageData_selection s h]
      show (applyDescriptionExcerpt (applySelection
        (baseRecord s (getSelectedText s) (extractMainContent s))
        (getSelectedText s))).excerpt = _
      rw [adx_excerpt_of_ne]
      · rfl
      · exact hne
    rw [hfe]
    exact length_jsSubstr_le _ _
  · intro a hm hsrc hex
    obtain ⟨h, a2, hm2, hc2⟩ := (contentSource_structured_iff s).1 hsrc
    rw [hm] at hm2
    obtain rfl : a = a2 := by injection hm2
    have hne : jsSubstr a.content 300 ≠ "" := by
      rw [Ne, jsSubstr_eq_empty_iff]
      simp [hc2]
    have hfe : (extractPageData s).1.excerpt = jsSubstr a.content 300 := by
      rw [extractPageData_structured s a h hm hc2]
      show (applyDescriptionExcerpt (applyStructured
        (baseRecord s (getSelectedText s) (extractMainContent s)) a)).excerpt = _
      rw [adx_excerpt_of_ne]
      · rw [applyStructured_excerpt, jsOr_of_eq _ _ hex]
      · rw [applyStructured_excerpt, jsOr_of_eq _ _ hex]
        exact hne
    rw [hfe]
    exact length_jsSubstr_le _ _
  · intro hsrc hne
    obtain ⟨h, hcase⟩ := (contentSource_fallback_iff s).1 hsrc
    have hsub : jsSubstr (extractFallbackContent s) 300 ≠ "" := by
      rw [Ne, jsSubstr_eq_empty_iff]
      simp [hne]
    have hfe : (extractPageData s).1.excerpt = jsSubstr (extractFallbackContent s) 300 := by
      rcases hcase with hm | ⟨a, hm, hc⟩
      · rw [extractPageData_fallback_none s h hm]
        show (applyDescriptionExcerpt (applyFallback
          (baseRecord s (getSelectedText s) (extractMainContent s))
          (extractFallbackContent s))).excerpt = _
        rw [adx_excerpt_of_ne]
        · rfl
        · exact hsub
      · rw [extractPageData_fallback_emptyContent s a h hm hc]
        show (applyDescriptionExcerpt (applyFallback
          (baseRecord s (getSelectedText s) (extractMainContent s))
          (extractFallbackContent s))).excerpt = _
        rw [adx_excerpt_of_ne]
        · rfl
        · exact hsub
    rw [hfe]
    exact length_jsSubstr_le _ _

/-- C5 witness: on the concrete selection page `sampleSelState` the record's
excerpt is at most 300 characters long. -/
theorem c5_excerpt_cap_witness :
    (extractPageData sampleSelState).1.excerpt.length ≤ 300 :=
  (c5_excerpt_cap sampleSelState).1 (by decide)

/-- C10: if the record's content is non-empty then its excerpt is non-empty;
on the SELECTION and STRUCTURED paths the excerpt is always non-empty, so the
description-as-excerpt final step can only take effect when content is the
empty string. -/
theorem c10_nonempty_content_excerpt (s : PageState) :
    ((extractPageData s).1.content ≠ "" → (extractPageData s).1.excerpt ≠ "") ∧
    (contentSource s = Source.SELECTION ∨ contentSource s = Source.STRUCTURED →
      (extractPageData s).1.excerpt ≠ "") := by
  by_cases h : 0 < (getSelectedText s).length
  · have hsel : getSelectedText s ≠ "" := (string_length_pos_iff _).1 h
    have hne : jsSubstr (getSelectedText s) 300 ≠ "" := by
      rw [Ne, jsSubstr_eq_empty_iff]
      simp [hsel]
    have hfe : (extractPageData s).1.excerpt = jsSubstr (getSelectedText s) 300 := by
      rw [extractPageData_selection s h]
      show (applyDescriptionExcerpt (applySelection
        (baseRecord s (getSelectedText s) (extractMainContent s))
        (getSelectedText s))).excerpt = _
      rw [adx_excerpt_of_ne]
      · rfl
      · exact hne
    rw [hfe]
    exact ⟨fun _ => hne, fun _ => hne⟩
  · cases hm : extractMainContent s with
    | none =>
      have hfc : (extractPageData s).1.content = extractFallbackContent s := by
        rw [extractPageData_fallback_none s h hm, adx_content]
        rfl
      constructor
      · intro hc
        rw [hfc] at hc
        have hsub : jsSubstr (extractFallbackContent s) 300 ≠ "" := by
          rw [Ne, jsSubstr_eq_empty_iff]
          simp [hc]
        have hfe : (extractPageData s).1.excerpt =
            jsSubstr (extractFallbackContent s) 300 := by
          rw [extractPageData_fallback_none s h hm]
          show (applyDescriptionExcerpt (applyFallback
            (baseRecord s (getSelectedText s) (extractMainContent s))
            (extractFallbackContent s))).excerpt = _
          rw [adx_excerpt_of_ne]
          · rfl
          · exact hsub
        rw [hfe]
        exact hsub
      · rintro (hsrc | hsrc)
        · exact absurd ((contentSource_selection_iff s).1 hsrc) h
        · obtain ⟨-, a2, hm2, -⟩ := (contentSource_structured_iff s).1 hsrc
          rw [hm] at hm2
          exact absurd hm2 (by simp)
    | some a =>
      by_cases hc : a.content = ""
      · have hfc : (extractPageData s).1.content = extractFallbackContent s := by
          rw [extractPageData_fallback_emptyContent s a h hm hc, adx_content]
          rfl
        constructor
        · intro hcc
          rw [hfc] at hcc
          have hsub : jsSubstr (extractFallbackContent s) 300 ≠ "" := by
            rw [Ne, jsSubstr_eq_empty_iff]
            simp [hcc]
          have hfe : (extractPageData s).1.excerpt =
              jsSubstr (extractFallbackContent s) 300 := by
            rw [extractPageData_fallback_emptyContent s a h hm hc]
            show (applyDescriptionExcerpt (applyFallback
              (baseRecord s (getSelectedText s) (extractMainContent s))
              (extractFallbackContent s))).excerpt = _
            rw [adx_excerpt_of_ne]
            · rfl
            · exact hsub
          rw [hfe]
          exact hsub
        · rintro (hsrc | hsrc)
          · exact absurd ((contentSource_selection_iff s).1 hsrc) h
          · obtain ⟨-, a2, hm2, hc2⟩ := (contentSource_structured_iff s).1 hsrc
            rw [hm] at hm2
            obtain rfl : a = a2 := by injection hm2
            exact absurd hc hc2
      · have hne : jsOr a.excerpt (jsSubstr a.content 300) ≠ "" := by
          rw [Ne, jsOr_eq_empty_iff, jsSubstr_eq_empty_iff]
          simp [hc]
        have hfe : (extractPageData s).1.excerpt =
            jsOr a.excerpt (jsSubstr a.content 300) := by
          rw [extractPageData_structured s a h hm hc]
          show (applyDescriptionExcerpt (applyStructured
            (baseRecord s (getSelectedText s) (extractMainContent s)) a)).excerpt = _
          rw [adx_excerpt_of_ne]
          · exact applyStructured_excerpt _ _
          · rw [applyStructured_excerpt]
            exact hne
        rw [hfe]
        exact ⟨fun _ => hne, fun _ => hne⟩

/-- C10 witness: on the concrete STRUCTURED page `sampleStructState` the
record's excerpt is non-empty. -/
theorem c10_nonempty_content_excerpt_witness :
    (extractPageData sampleStructState).1.excerpt ≠ "" :=
  (c10_nonempty_content_excerpt sampleStructState).2 (Or.inr (by decide))

/-- C3 counterexample: on `emptyContainerState` the Structured Extractor
returns null and the body has visible text, yet the fallback path returns
`content = ""`, because the first matching semantic container (`article`)
has no text and `extractFallbackContent` returns its text without ever
consulting the body. -/
theorem c3_fallback_counterexample :
    getSelectedText emptyContainerState = "" ∧
    extractMainContent emptyContainerState = none ∧
    contentSource emptyContainerState = Source.FALLBACK ∧
    jsOr emptyContainerState.body.innerText
      (jsOr emptyContainerState.body.textContent "") = "Hello body" ∧
    (extractPageData emptyContainerState).1.content = "" :=
  ⟨rfl, rfl, by decide, by decide, by decide⟩

/-- C3 amended: when the Structured Extractor returns null (and there is no
selection), the content is exactly the fallback extractor's output; if no
semantic selector matches, that output is the body's visible text, so
content is empty iff the body has no visible text — but if a selector
matches, content is that first matching element's text, which may be empty
even when the body has text. -/
theorem c3_fallback_amended (s : PageState)
    (hsel : getSelectedText s = "")
    (hart : extractMainContent s = none) :
    (extractPageData s).1.content = extractFallbackContent s ∧
    (∀ e, firstMatch s fallbackSelectors = some e →
      extractFallbackContent s = elemText e) ∧
    (firstMatch s fallbackSelectors = none →
      ((extractPageData s).1.content = "" ↔
        jsOr s.body.innerText (jsOr s.body.textContent "") = "")) := by
  have h : ¬ 0 < (getSelectedText s).length := by
    rw [hsel]
    decide
  have hfc : (extractPageData s).1.content = extractFallbackContent s := by
    rw [extractPageData_fallback_none s h hart, adx_content]
    rfl
  refine ⟨hfc, ?_, ?_⟩
  · intro e he
    unfold extractFallbackContent
    rw [he]
  · intro hnone
    rw [hfc]
    unfold extractFallbackContent
    rw [hnone]

/-- C3 amended witness: on `sampleFallState` (null extractor result, no
matching selector, body text `"Hello body"`) the content is the body's
visible text. -/
theorem c3_fallback_amended_witness :
    (extractPageData sampleFallState).1.content = "Hello body" :=
  ((c3_fallback_amended sampleFallState rfl rfl).1).trans (by decide)

/-- C6 counterexample: on `sampleStructState` the structured extractor
produces a result whose `siteName` is empty, and the record's `siteName` is
that empty string — not the page's host name, contradicting the claimed
fallback to the host name. -/
theorem c6_siteName_counterexample :
    extractMainContent sampleStructState = some sampleStructArticle ∧
    sampleStructArticle.siteName = "" ∧
    sampleStructState.locationHostname = "example.com" ∧
    (extractPageData sampleStructState).1.siteName = "" ∧
    (extractPageData sampleStructState).1.siteName ≠
      sampleStructState.locationHostname :=
  ⟨rfl, rfl, rfl, by decide, by decide⟩

/-- C6 amended: the record's author is the metadata author when that is
non-empty, else the extractor byline (empty when the extractor returned
null); the record's `siteName` is the extractor's `siteName` whenever the
extractor returned a result — even when that `siteName` is empty — and the
page's host name only when the extractor returned null. -/
theorem c6_author_siteName_amended (s : PageState) :
    (getMetaAuthor s ≠ "" → (extractPageData s).1.author = getMetaAuthor s) ∧
    (getMetaAuthor s = "" →
      (extractPageData s).1.author =
        (match extractMainContent s with | some a => a.byline | none => "")) ∧
    (extractPageData s).1.siteName =
      (match extractMainContent s with
        | some a => a.siteName
        | none => s.locationHostname) := by
  refine ⟨?_, ?_, extractPageData_siteName s⟩
  · intro hne
    rw [extractPageData_author, jsOr_of_ne _ _ hne]
  · intro heq
    rw [extractPageData_author, jsOr_of_eq _ _ heq]

/-- C6 amended witness: on `sampleStructState` (no author metadata,
extractor byline `"Jane Doe"`, extractor siteName empty) the record's author
is the byline and its siteName is the empty extractor siteName. -/
theorem c6_author_siteName_amended_witness :
    (extractPageData sampleStructState).1.author = "Jane Doe" ∧
    (extractPageData sampleStructState).1.siteName = "" := by
  have h := c6_author_siteName_amended sampleStructState
  exact ⟨(h.2.1 rfl).trans (by decide), h.2.2.trans (by decide)⟩

/-- C8: the inbound "extract current page content" handler never lets an
exception escape — for every outcome of running `extractPageData`
(`Except.ok` a record, or `Except.error` modelling a thrown exception), it
responds with a success response carrying the ContentRecord, or with a
structured failure response carrying the message string. -/
theorem c8_listener_boundary (action : String)
    (outcome : Except String (ContentRecord × List Notification))
    (h : action = "extractPageData") :
    (∀ pd, outcome = Except.ok pd →
      onMessageListener action outcome =
        some { success := true, data := some pd.1, error := none }) ∧
    (∀ msg, outcome = Except.error msg →
      onMessageListener action outcome =
        some { success := false, data := none, error := some msg }) ∧
    (∃ resp, onMessageListener action outcome = some resp ∧
      ((resp.success = true ∧ resp.error = none ∧ ∃ r, resp.data = some r) ∨
       (resp.success = false ∧ resp.data = none ∧ ∃ m, resp.error = some m))) := by
  subst h
  refine ⟨?_, ?_, ?_⟩
  · rintro pd rfl
    rfl
  · rintro msg rfl
    rfl
  · cases outcome with
    | ok pd =>
      exact ⟨{ success := true, data := some pd.1, error := none }, rfl,
        Or.inl ⟨rfl, rfl, pd.1, rfl⟩⟩
    | error msg =>
      exact ⟨{ success := false, data := none, error := some msg }, rfl,
        Or.inr ⟨rfl, rfl, msg, rfl⟩⟩

/-- C8 witness: an exception with message `"boom"` thrown inside
`extractPageData` is converted into the structured failure response. -/
theorem c8_listener_boundary_witness :
    onMessageListener "extractPageData" (Except.error "boom") =
      some { success := false, data := none, error := some "boom" } :=
  (c8_listener_boundary "extractPageData" (Except.error "boom") rfl).2.1 "boom" rfl

end ChromeExt
